import Mathlib

/-!
Verification development for the Construction GraphRAG frontend
(construction_Graph/frontend/src/components/DocumentUpload.jsx,
AnswerDisplay.jsx and the query panel component).

The embedding below translates the client-side upload, polling and
rendering logic into pure Lean functions.  A poll round is modelled as a
pure state transformer that consumes the per-job fetch outcomes of that
round (a fetch outcome is `none` when the request or JSON parse failed,
mirroring the per-job try/catch in the source, and `some r` when the
server answered with body `r`).  Timers are modelled by the `active`
flag: a state with `active = true` has a next round scheduled.
-/

namespace HC393

/-- Body of a `/job/...` response as consumed by the client: a `status`
string and an optional `error` string. -/
structure ServerResponse where
  status : String
  error : Option String := none
deriving DecidableEq

/-- One entry of the `details` array returned by `/upload-multiple`:
filename, submission status, optional job id, optional error. -/
structure UploadDetail where
  filename : String
  status : String := "queued"
  job_id : Option String := none
  error : Option String := none
deriving DecidableEq

/-- One entry of the `processingDetails` React state: the per-file
displayed record. -/
structure FileDetail where
  filename : String
  status : String
  jobId : Option String := none
  error : Option String := none
deriving DecidableEq

/-- The shared display state of the DocumentUpload component that the
poll loops write to: `uploadStatus` text, the completed/failed counts of
the `progress` record, and `processingDetails`. -/
structure DisplayState where
  uploadStatus : String
  progressCompleted : Nat := 0
  progressFailed : Nat := 0
  processingDetails : List FileDetail := []
deriving DecidableEq

/-- Source: `const maxAttempts = 60;` (declared in both poll functions). -/
def maxAttempts : Nat := 60

/-- Source: `setTimeout(checkStatus, 1000)` / `setTimeout(checkJobs, 1000)`. -/
def initialDelayMs : Nat := 1000

/-- Source: `setTimeout(checkStatus, 2000)` in `pollJobCompletion`. -/
def pollIntervalSingleMs : Nat := 2000

/-- Source: `setTimeout(checkJobs, 3000)` in `pollJobsCompletion`. -/
def pollIntervalMultiMs : Nat := 3000

/-- Timeout message of the single-job path. -/
def takingLongerMsg : String := "⚠️ Processing is taking longer than expected..."

/-! ### Single-job path: `pollJobCompletion` -/

/-- Loop state of `pollJobCompletion`: attempt counter, the shared
display state, whether a next `checkStatus` is scheduled, and whether
the `onUploadSuccess` callback has been scheduled. -/
structure SinglePollState where
  attempts : Nat
  display : DisplayState
  active : Bool
  callbackFired : Bool := false
deriving DecidableEq

/-- Status text of the single-job processing branch:
elapsed minutes are `Math.floor(attempts * 2 / 60)` and seconds
`(attempts * 2) % 60`, computed after `attempts++`. -/
def singleProcessingMsg (attempts : Nat) : String :=
  "⏳ Processing document... (" ++ toString (attempts * 2 / 60) ++ "m "
    ++ toString ((attempts * 2) % 60) ++ "s)"

/-- Display state set by `handleUpload` right after a successful single
upload: status text plus one detail record with status `processing`. -/
def initSingleDisplay (filename jobId : String) : DisplayState :=
  { uploadStatus := "✅ Upload complete! Processing document..."
    processingDetails := [{ filename := filename, status := "processing", jobId := some jobId }] }

/-- Loop state at the moment `pollJobCompletion` schedules its first
`checkStatus` call. -/
def initSingle (filename jobId : String) : SinglePollState :=
  { attempts := 0, display := initSingleDisplay filename jobId, active := true }

/-- One execution of `checkStatus` in `pollJobCompletion`.  `fetch` is
`none` when the request or `response.json()` threw: the catch block only
logs, so no next round is scheduled and nothing else changes. -/
def checkStatus (jobId filename : String) (fetch : Option ServerResponse)
    (st : SinglePollState) : SinglePollState :=
  match fetch with
  | none => { st with active := false }
  | some data =>
    if data.status = "finished" then
      { st with
        display := { st.display with
          uploadStatus := "🎉 Document processed successfully!"
          processingDetails := [{ filename := filename, status := "complete", jobId := some jobId }] }
        active := false
        callbackFired := true }
    else if data.status = "failed" then
      { st with
        display := { st.display with
          uploadStatus := "❌ Processing failed: " ++ data.error.getD "Unknown error"
          processingDetails :=
            [{ filename := filename, status := "failed", jobId := some jobId, error := data.error }] }
        active := false }
    else if st.attempts < maxAttempts then
      { st with
        attempts := st.attempts + 1
        display := { st.display with uploadStatus := singleProcessingMsg (st.attempts + 1) }
        active := true }
    else
      { st with
        display := { st.display with uploadStatus := takingLongerMsg }
        active := false }

/-- Run the single-job loop over a list of per-round fetch outcomes; a
round only executes while a next call is scheduled. -/
def runSingle (jobId filename : String) (fetches : List (Option ServerResponse))
    (st : SinglePollState) : SinglePollState :=
  match fetches with
  | [] => st
  | f :: fs =>
    if st.active then runSingle jobId filename fs (checkStatus jobId filename f st) else st

/-- Displayed status of the (single) tracked file. -/
def detailStatusOf (st : SinglePollState) : String :=
  (st.display.processingDetails.head?.map FileDetail.status).getD ""

/-- Displayed per-file status after each executed round. -/
def singleStatusTrace (jobId filename : String) (fetches : List (Option ServerResponse))
    (st : SinglePollState) : List String :=
  match fetches with
  | [] => []
  | f :: fs =>
    if st.active then
      detailStatusOf (checkStatus jobId filename f st)
        :: singleStatusTrace jobId filename fs (checkStatus jobId filename f st)
    else []

/-! ### Batch path: `pollJobsCompletion` -/

/-- The inner catch of a per-job fetch returns `{ status: "unknown" }`. -/
def unknownStatus : ServerResponse := { status := "unknown" }

/-- Resolve one per-job fetch outcome as the source does. -/
def resolveFetch (r : Option ServerResponse) : ServerResponse :=
  r.getD unknownStatus

/-- Mapping from a server status to the displayed per-file status:
finished maps to complete, failed to failed, anything else (including
the transient `unknown`) to processing. -/
def displayStatusOf (s : ServerResponse) : String :=
  if s.status = "finished" then "complete"
  else if s.status = "failed" then "failed"
  else "processing"

/-- Per-file record rebuilt in each round from the upload detail and the
status response of this round. -/
def updateDetail (detail : UploadDetail) (jobStatus : ServerResponse) : FileDetail :=
  { filename := detail.filename
    status := displayStatusOf jobStatus
    jobId := detail.job_id
    error := if jobStatus.status = "failed" then jobStatus.error else none }

/-- Details written in a round: `fileDetails.map` pairing each detail
with the status of the same index. -/
def roundDetails (fileDetails : List UploadDetail)
    (fetch : List (Option ServerResponse)) : List FileDetail :=
  List.zipWith updateDetail fileDetails (fetch.map resolveFetch)

/-- Count of statuses equal to finished. -/
def completedCount (statuses : List ServerResponse) : Nat :=
  (statuses.filter (fun s => s.status == "finished")).length

/-- Count of statuses equal to failed. -/
def failedCount (statuses : List ServerResponse) : Nat :=
  (statuses.filter (fun s => s.status == "failed")).length

/-- Source: `const processing = total - completed - failed;`. -/
def processingCount (total : Nat) (statuses : List ServerResponse) : Nat :=
  total - completedCount statuses - failedCount statuses

/-- Exact-rational model of `Math.round((completed / total) * 100)`:
floor of `100 * completed / total + 1 / 2` as natural division. -/
def percentOf (completed total : Nat) : Nat :=
  (200 * completed + total) / (2 * total)

/-- Status text of the batch processing branch. -/
def multiProcessingMsg (attempts completed total failed : Nat) : String :=
  "⏳ Processing: " ++ toString completed ++ "/" ++ toString total
    ++ " complete (" ++ toString (percentOf completed total) ++ "%) - "
    ++ toString (attempts * 3 / 60) ++ "m elapsed"
    ++ (if failed > 0 then " - " ++ toString failed ++ " failed" else "")

/-- Status text of the batch completion branch. -/
def multiDoneMsg (completed total failed : Nat) : String :=
  if failed = 0 then
    "🎉 All " ++ toString total ++ " documents processed successfully!"
  else
    "✅ Processing complete: " ++ toString completed ++ " successful, "
      ++ toString failed ++ " failed"

/-- Loop state of `pollJobsCompletion`. -/
structure BatchPollState where
  attempts : Nat
  display : DisplayState
  active : Bool
  callbackFired : Bool := false
deriving DecidableEq

/-- One execution of `checkJobs` in `pollJobsCompletion`.  All jobs are
fetched (one outcome per element of `jobIds`); `total` is
`jobIds.length`; details, progress counts and the status text are
rewritten from this round only.  When `processing > 0` the attempt
counter is incremented and a next round is scheduled unconditionally
(the declared `maxAttempts` is never consulted); otherwise the loop
stops and the completion callback is scheduled. -/
def checkJobs (jobIds : List String) (fileDetails : List UploadDetail)
    (fetch : List (Option ServerResponse)) (st : BatchPollState) : BatchPollState :=
  if 0 < processingCount jobIds.length (fetch.map resolveFetch) then
    { attempts := st.attempts + 1
      display :=
        { uploadStatus := multiProcessingMsg (st.attempts + 1)
            (completedCount (fetch.map resolveFetch)) jobIds.length
            (failedCount (fetch.map resolveFetch))
          progressCompleted := completedCount (fetch.map resolveFetch)
          progressFailed := failedCount (fetch.map resolveFetch)
          processingDetails := roundDetails fileDetails fetch }
      active := true
      callbackFired := st.callbackFired }
  else
    { attempts := st.attempts
      display :=
        { uploadStatus := multiDoneMsg (completedCount (fetch.map resolveFetch))
            jobIds.length (failedCount (fetch.map resolveFetch))
          progressCompleted := completedCount (fetch.map resolveFetch)
          progressFailed := failedCount (fetch.map resolveFetch)
          processingDetails := roundDetails fileDetails fetch }
      active := false
      callbackFired := true }

/-- Job ids queried when the next scheduled round runs: `checkJobs`
fans out one request per element of `jobIds` (`jobIds.map(...)`),
regardless of any per-job displayed state; no round runs when none is
scheduled. -/
def roundRequests (jobIds : List String) (st : BatchPollState) : List String :=
  if st.active then jobIds else []

/-- Run the batch loop over a list of per-round fetch-outcome vectors. -/
def runBatch (jobIds : List String) (fileDetails : List UploadDetail)
    (rounds : List (List (Option ServerResponse))) (st : BatchPollState) : BatchPollState :=
  match rounds with
  | [] => st
  | f :: fs =>
    if st.active then runBatch jobIds fileDetails fs (checkJobs jobIds fileDetails f st) else st

/-- Initial per-file record built by `handleUpload` from a batch upload
response: submission status `queued` displays as `processing`, anything
else as `failed`. -/
def initialDetailMulti (d : UploadDetail) : FileDetail :=
  { filename := d.filename
    status := if d.status = "queued" then "processing" else "failed"
    jobId := d.job_id
    error := d.error }

/-- Display state set by `handleUpload` right after a successful batch
upload. -/
def initMultiDisplay (details : List UploadDetail) (successful total : Nat) : DisplayState :=
  { uploadStatus := "✅ Uploaded " ++ toString successful ++ "/" ++ toString total
      ++ " files. Processing..."
    processingDetails := details.map initialDetailMulti }

/-- Loop state at the moment `pollJobsCompletion` schedules its first
`checkJobs` call. -/
def initBatch (details : List UploadDetail) (successful total : Nat) : BatchPollState :=
  { attempts := 0, display := initMultiDisplay details successful total, active := true }

/-! ### Upload guards and non-2xx handling in `handleUpload` -/

/-- Outcome of the guard section of `handleUpload` for a selection of
`n` files. -/
inductive UploadAction where
  | reject (msg : String)
  | requestSingle
  | requestMultiple
deriving DecidableEq

/-- Guard section of `handleUpload`: empty selection and selections of
more than 20 files are rejected before any network call; one file goes
to `/upload`, otherwise `/upload-multiple`. -/
def uploadDecision (n : Nat) : UploadAction :=
  if n = 0 then .reject "Please select at least one file"
  else if n > 20 then .reject "Maximum 20 files allowed per upload"
  else if n = 1 then .requestSingle
  else .requestMultiple

/-- Whether the action issues a network request. -/
def issuesRequest : UploadAction → Bool
  | .reject _ => false
  | _ => true

/-- Message of the error thrown on a non-2xx upload response:
`errorData.detail || HTTP status`; a missing or empty (falsy) detail
falls back to the generic status-code message. -/
def httpErrorMessage (status : Nat) (detail : Option String) : String :=
  match detail with
  | some d => if d = "" then "HTTP " ++ toString status else d
  | none => "HTTP " ++ toString status

/-- Status text shown by the catch block of `handleUpload` for a
non-2xx upload response. -/
def uploadFailureStatus (status : Nat) (detail : Option String) : String :=
  "❌ Upload failed: " ++ httpErrorMessage status detail

/-! ### Query panel: `handleQuery`, and `AnswerDisplay` -/

/-- One source citation of a query answer. -/
structure SourceRef where
  filename : Option String := none
  page : Nat := 0
  is_diagram : Bool := false
deriving DecidableEq

/-- Body of a `/query` response as delivered to `onQueryResult`. -/
structure QueryData where
  answer : String
  query_type : String
  execution_time_ms : Nat
  sources : List SourceRef := []
deriving DecidableEq

/-- Outcome of the `/query` fetch as seen by `handleQuery`: the request
itself may throw, the body may fail to parse, or a body parses —
carrying whatever HTTP status the server used. -/
inductive QueryFetchOutcome where
  | networkError (msg : String)
  | parseError (httpStatus : Nat) (msg : String)
  | parsed (httpStatus : Nat) (body : QueryData)
deriving DecidableEq

/-- Error result built in the catch block of `handleQuery`. -/
def queryErrorResult (msg : String) : QueryData :=
  { answer := "Query failed: " ++ msg, query_type := "error", execution_time_ms := 0 }

/-- The result `handleQuery` delivers to `onQueryResult`: the parsed
body is passed through with no `response.ok` check, so the HTTP status
is never consulted; only a thrown fetch or parse error reaches the
catch block. -/
def handleQuery : QueryFetchOutcome → QueryData
  | .networkError msg => queryErrorResult msg
  | .parseError _ msg => queryErrorResult msg
  | .parsed _ body => body

/-- Source entries rendered by `AnswerDisplay`: the sources section is
rendered only for a nonempty list, and shows `sources.slice(0, 5)`. -/
def displayedSources (sources : List SourceRef) : List SourceRef :=
  if sources.length > 0 then sources.take 5 else []

/-! ### Helper lemmas on the round aggregates -/

/-- The finished and failed counts of one round never exceed the number
of statuses, since no status is both. -/
theorem completed_add_failed_le (l : List ServerResponse) :
    completedCount l + failedCount l ≤ l.length := by
  induction l with
  | nil => simp [completedCount, failedCount]
  | cons a t ih =>
    simp only [completedCount, failedCount, List.filter_cons, List.length_cons] at ih ⊢
    by_cases h1 : (a.status == "finished") = true
    · have h2 : (a.status == "failed") = false := by
        rw [beq_iff_eq] at h1
        simp [h1]
      simp only [h1, h2, if_true, if_false, Bool.false_eq_true, List.length_cons]
      omega
    · by_cases h2 : (a.status == "failed") = true
      · simp only [h1, h2, if_true, if_false, Bool.false_eq_true, List.length_cons]
        omega
      · simp only [h1, h2, Bool.false_eq_true, if_false]
        omega

/-- Strict version: a status that is neither finished nor failed keeps
the sum of the two counts below the number of statuses. -/
theorem completed_add_failed_lt (l : List ServerResponse) (s : ServerResponse)
    (hs : s ∈ l) (h1 : s.status ≠ "finished") (h2 : s.status ≠ "failed") :
    completedCount l + failedCount l < l.length := by
  induction l with
  | nil => cases hs
  | cons a t ih =>
    simp only [completedCount, failedCount, List.filter_cons, List.length_cons]
    rcases List.mem_cons.mp hs with rfl | hmem
    · have g1 : (s.status == "finished") = false := by simp [h1]
      have g2 : (s.status == "failed") = false := by simp [h2]
      simp only [g1, g2, Bool.false_eq_true, if_false]
      have := completed_add_failed_le t
      simp only [completedCount, failedCount] at this
      omega
    · have ht := ih hmem
      simp only [completedCount, failedCount] at ht
      by_cases g1 : (a.status == "finished") = true
      · have g2 : (a.status == "failed") = false := by
          rw [beq_iff_eq] at g1
          simp [g1]
        simp only [g1, g2, if_true, Bool.false_eq_true, if_false, List.length_cons]
        omega
      · by_cases g2 : (a.status == "failed") = true
        · simp only [g1, g2, if_true, Bool.false_eq_true, if_false, List.length_cons]
          omega
        · simp only [g1, g2, Bool.false_eq_true, if_false]
          omega

/-- When every status of a round is terminal, the finished and failed
counts exhaust the round. -/
theorem completed_add_failed_eq (l : List ServerResponse)
    (h : ∀ s ∈ l, s.status = "finished" ∨ s.status = "failed") :
    completedCount l + failedCount l = l.length := by
  induction l with
  | nil => simp [completedCount, failedCount]
  | cons a t ih =>
    have ha := h a (List.mem_cons_self a t)
    have ht := ih (fun s hs => h s (List.mem_cons_of_mem a hs))
    simp only [completedCount, failedCount, List.filter_cons, List.length_cons] at ht ⊢
    rcases ha with ha | ha
    · have g1 : (a.status == "finished") = true := by simp [ha]
      have g2 : (a.status == "failed") = false := by simp [ha]
      simp only [g1, g2, if_true, Bool.false_eq_true, if_false, List.length_cons]
      omega
    · have g2 : (a.status == "failed") = true := by simp [ha]
      by_cases g1 : (a.status == "finished") = true
      · rw [beq_iff_eq] at g1
        rw [g1] at ha
        exact absurd ha (by decide)
      · simp only [g1, g2, if_true, Bool.false_eq_true, if_false, List.length_cons]
        omega

/-- Round details keep the filenames of the upload details they were
built from. -/
theorem roundDetails_filenames (ds : List UploadDetail)
    (fetch : List (Option ServerResponse)) (h : fetch.length = ds.length) :
    (roundDetails ds fetch).map FileDetail.filename = ds.map UploadDetail.filename := by
  unfold roundDetails
  induction ds generalizing fetch with
  | nil => simp
  | cons a t ih =>
    cases fetch with
    | nil => simp at h
    | cons f ft =>
      simp only [List.map_cons, List.zipWith_cons_cons, updateDetail]
      exact congrArg (_ :: ·) (ih ft (by simpa using h))

/-- The rounded percentage of the batch status text is the standard
rounding of the exact ratio. -/
theorem percentOf_eq_round (c t : Nat) (ht : 0 < t) :
    (percentOf c t : ℤ) = round ((100 * c : ℚ) / t) := by
  have ht0 : (t : ℚ) ≠ 0 := by positivity
  rw [round_eq]
  have key : (100 * c : ℚ) / t + 1 / 2 = ((200 * c + t : ℕ) : ℚ) / ((2 * t : ℕ) : ℚ) := by
    push_cast
    field_simp
    ring
  rw [key, ← Int.natCast_floor_eq_floor (by positivity), Nat.floor_div_eq_div]
  rfl

/-! ### Claim theorems -/

/-- C9: a selection of more than 20 files is rejected with the
dedicated status message and issues no network request; every selection
of 1 to 20 files proceeds to issue an upload request. -/
theorem upload_file_limit (n : Nat) :
    (20 < n → uploadDecision n = .reject "Maximum 20 files allowed per upload" ∧
      issuesRequest (uploadDecision n) = false) ∧
    (1 ≤ n → n ≤ 20 → issuesRequest (uploadDecision n) = true) := by
  constructor
  · intro h
    have h0 : ¬ n = 0 := by omega
    simp [uploadDecision, h0, h, issuesRequest]
  · intro h1 h20
    have h0 : ¬ n = 0 := by omega
    have hgt : ¬ n > 20 := by omega
    by_cases he : n = 1 <;> simp [uploadDecision, h0, hgt, he, issuesRequest]

/-- C9 witness: 21 files are rejected without a request; 5 files issue
a request. -/
theorem upload_file_limit_witness :
    (uploadDecision 21 = .reject "Maximum 20 files allowed per upload" ∧
      issuesRequest (uploadDecision 21) = false) ∧
    issuesRequest (uploadDecision 5) = true :=
  ⟨(upload_file_limit 21).1 (by decide), (upload_file_limit 5).2 (by decide) (by decide)⟩

/-- C10: the answer renderer displays exactly the first
min(length, 5) sources, in list order. -/
theorem sources_display_cap (l : List SourceRef) :
    (displayedSources l).length = min l.length 5 ∧ displayedSources l = l.take 5 := by
  cases l with
  | nil => simp [displayedSources]
  | cons a t =>
    have hpos : (a :: t).length > 0 := by simp
    constructor
    · rw [displayedSources, if_pos hpos, List.length_take]
      omega
    · rw [displayedSources, if_pos hpos]

/-- C8: in every batch polling round the aggregates satisfy
completed + failed + stillProcessing = total, and the reported
percentage is the rounding of 100 * completed / total. -/
theorem round_counts_invariant (jobIds : List String) (fetch : List (Option ServerResponse))
    (hlen : fetch.length = jobIds.length) :
    completedCount (fetch.map resolveFetch) + failedCount (fetch.map resolveFetch)
        + processingCount jobIds.length (fetch.map resolveFetch) = jobIds.length ∧
    (0 < jobIds.length →
      (percentOf (completedCount (fetch.map resolveFetch)) jobIds.length : ℤ)
        = round ((100 * (completedCount (fetch.map resolveFetch)) : ℚ) / (jobIds.length : ℚ))) := by
  have hle := completed_add_failed_le (fetch.map resolveFetch)
  rw [List.length_map, hlen] at hle
  constructor
  · unfold processingCount
    omega
  · intro ht
    exact percentOf_eq_round _ _ ht

/-- C8 witness: one job answering finished gives 1 + 0 + 0 = 1 and a
percentage of 100. -/
theorem round_counts_invariant_witness :
    completedCount ([some { status := "finished" }].map resolveFetch)
        + failedCount ([some { status := "finished" }].map resolveFetch)
        + processingCount (["j1"] : List String).length
            ([some { status := "finished" }].map resolveFetch)
      = (["j1"] : List String).length ∧
    (percentOf (completedCount ([some { status := "finished" }].map resolveFetch))
        (["j1"] : List String).length : ℤ)
      = round ((100 * (completedCount ([some { status := "finished" }].map resolveFetch)) : ℚ)
          / ((["j1"] : List String).length : ℚ)) :=
  ⟨(round_counts_invariant ["j1"] [some { status := "finished" }] rfl).1,
   (round_counts_invariant ["j1"] [some { status := "finished" }] rfl).2 (by decide)⟩

/-- C1: the batch poll loop is not bounded by maxAttempts: with one job
that stays queued, after 61 executed rounds a further round is still
scheduled, the attempt counter exceeds maxAttempts, and the
taking-longer status was never emitted (the final status text is the
processing text of round 61, and the batch loop has no timeout branch
at all). -/
theorem batch_poll_never_times_out :
    (runBatch ["j1"] [{ filename := "a.pdf", job_id := some "j1" }]
        (List.replicate 61 [some { status := "queued" }])
        (initBatch [{ filename := "a.pdf", job_id := some "j1" }] 1 1)).active = true ∧
    (runBatch ["j1"] [{ filename := "a.pdf", job_id := some "j1" }]
        (List.replicate 61 [some { status := "queued" }])
        (initBatch [{ filename := "a.pdf", job_id := some "j1" }] 1 1)).attempts
      = maxAttempts + 1 ∧
    (runBatch ["j1"] [{ filename := "a.pdf", job_id := some "j1" }]
        (List.replicate 61 [some { status := "queued" }])
        (initBatch [{ filename := "a.pdf", job_id := some "j1" }] 1 1)).display.uploadStatus
      ≠ takingLongerMsg := by decide

/-- C6 counterexample: the displayed state immediately after a
single-file submission, before any status response, is processing, not
queued. -/
theorem initial_display_not_queued :
    detailStatusOf (initSingle "a.pdf" "j1") = "processing" ∧
    ("processing" : String) ≠ "queued" := by decide

/-- C6 amended: the displayed state immediately after submission is
processing; it moves to a terminal state on the first terminal status
check, so for responses queued, queued, finished the displayed sequence
is processing, processing, processing, complete. -/
theorem single_scenario_trace :
    detailStatusOf (initSingle "a.pdf" "j1") = "processing" ∧
    singleStatusTrace "j1" "a.pdf"
        [some { status := "queued" }, some { status := "queued" }, some { status := "finished" }]
        (initSingle "a.pdf" "j1")
      = ["processing", "processing", "complete"] := by decide

/-- C5 counterexample: the single-job and batch paths are not the same
loop specialized to one job: their polling intervals differ, and a
transient status error ends the single-job loop while it leaves a
one-job batch loop scheduled for another round. -/
theorem single_multi_paths_differ :
    pollIntervalSingleMs ≠ pollIntervalMultiMs ∧
    (checkStatus "j1" "a.pdf" none (initSingle "a.pdf" "j1")).active = false ∧
    (checkJobs ["j1"] [{ filename := "a.pdf", job_id := some "j1" }] [none]
        (initBatch [{ filename := "a.pdf", job_id := some "j1" }] 1 1)).active = true := by decide

/-- C5 amended: both paths map a successful status response to the same
displayed per-file state (finished to complete, failed to failed,
anything else to processing), but they differ in polling interval
(2000 ms vs 3000 ms), in the round bound (the single path keeps its
attempt counter within maxAttempts whenever it stays active, while the
batch path keeps counting past it), and in transient-error handling. -/
theorem single_multi_shared_mapping :
    (∀ r : ServerResponse,
      detailStatusOf (checkStatus "j1" "a.pdf" (some r) (initSingle "a.pdf" "j1"))
        = displayStatusOf r) ∧
    (∀ (d : UploadDetail) (r : ServerResponse), (updateDetail d r).status = displayStatusOf r) ∧
    pollIntervalSingleMs = 2000 ∧ pollIntervalMultiMs = 3000 ∧
    (∀ (x : Option ServerResponse) (st : SinglePollState),
      (checkStatus "j1" "a.pdf" x st).active = true →
        (checkStatus "j1" "a.pdf" x st).attempts ≤ maxAttempts) ∧
    (checkJobs ["j1"] [{ filename := "a.pdf", job_id := some "j1" }] [some { status := "queued" }]
        { attempts := 1000, display := { uploadStatus := "" }, active := true }).attempts = 1001 ∧
    (checkJobs ["j1"] [{ filename := "a.pdf", job_id := some "j1" }] [some { status := "queued" }]
        { attempts := 1000, display := { uploadStatus := "" }, active := true }).active = true := by
  refine ⟨?_, ?_, rfl, rfl, ?_, by decide, by decide⟩
  · intro r
    by_cases h1 : r.status = "finished"
    · simp [checkStatus, detailStatusOf, displayStatusOf, h1]
    · by_cases h2 : r.status = "failed"
      · simp [checkStatus, detailStatusOf, displayStatusOf, h1, h2]
      · simp [checkStatus, detailStatusOf, displayStatusOf, initSingle, initSingleDisplay,
          h1, h2, maxAttempts]
  · intro d r
    by_cases h1 : r.status = "finished"
    · simp [updateDetail, displayStatusOf, h1]
    · by_cases h2 : r.status = "failed" <;>
        simp [updateDetail, displayStatusOf, h1, h2]
  · intro x st h
    match x with
    | none => simp [checkStatus] at h
    | some data =>
      simp only [checkStatus] at h ⊢
      split_ifs at h ⊢ with h1 h2 h3
      show st.attempts + 1 ≤ maxAttempts
      simp only [maxAttempts] at h3 ⊢
      omega

/-- C5 witness: a finished response displays the same per-file state on
both paths. -/
theorem single_multi_shared_mapping_witness :
    detailStatusOf (checkStatus "j1" "a.pdf" (some { status := "finished" })
        (initSingle "a.pdf" "j1"))
      = displayStatusOf { status := "finished" } :=
  single_multi_shared_mapping.1 { status := "finished" }

/-- C7 counterexample: a non-2xx query response whose body parses is
delivered verbatim to the caller as an ordinary result: no error
containing the server detail or the status code is surfaced. -/
theorem query_ignores_http_status :
    handleQuery (.parsed 500 ⟨"server detail text", "graph", 3, []⟩)
      = (⟨"server detail text", "graph", 3, []⟩ : QueryData) ∧
    (⟨"server detail text", "graph", 3, []⟩ : QueryData).query_type ≠ "error" := by decide

/-- C7 amended: upload requests surface a non-2xx response with the
server detail when the body provides a nonempty one, else with the
generic HTTP status-code message; the query path performs no status
check at all: any parseable body is delivered as the result regardless
of the HTTP status, and only a thrown fetch or parse error produces an
error result. -/
theorem non2xx_error_surfacing (status : Nat) (d : String) (hd : d ≠ "") :
    uploadFailureStatus status (some d) = "❌ Upload failed: " ++ d ∧
    uploadFailureStatus status none = "❌ Upload failed: HTTP " ++ toString status ∧
    (∀ (s : Nat) (body : QueryData), handleQuery (.parsed s body) = body) ∧
    (∀ (s : Nat) (m : String), handleQuery (.parseError s m) = queryErrorResult m) := by
  refine ⟨?_, rfl, fun s body => rfl, fun s m => rfl⟩
  simp [uploadFailureStatus, httpErrorMessage, hd]

/-- C7 witness: a 500 upload response with detail boom surfaces boom. -/
theorem non2xx_error_surfacing_witness :
    uploadFailureStatus 500 (some "boom") = "❌ Upload failed: " ++ "boom" :=
  (non2xx_error_surfacing 500 "boom" (by decide)).1

/-- C2 counterexample: job ja is displayed complete after round 1; a
transient fetch error for ja in round 2 flips its displayed state back
to processing, so its state after round 2 differs from its state after
round 1 although only the status request failed. -/
theorem transient_error_after_terminal_regresses :
    ((checkJobs ["ja", "jb"]
        [{ filename := "a.pdf", job_id := some "ja" }, { filename := "b.pdf", job_id := some "jb" }]
        [some { status := "finished" }, some { status := "queued" }]
        (initBatch [{ filename := "a.pdf", job_id := some "ja" }, { filename := "b.pdf", job_id := some "jb" }] 2 2)).display.processingDetails.map
          FileDetail.status = ["complete", "processing"]) ∧
    ((checkJobs ["ja", "jb"]
        [{ filename := "a.pdf", job_id := some "ja" }, { filename := "b.pdf", job_id := some "jb" }]
        [none, some { status := "queued" }]
        (checkJobs ["ja", "jb"]
          [{ filename := "a.pdf", job_id := some "ja" }, { filename := "b.pdf", job_id := some "jb" }]
          [some { status := "finished" }, some { status := "queued" }]
          (initBatch [{ filename := "a.pdf", job_id := some "ja" }, { filename := "b.pdf", job_id := some "jb" }] 2 2))).display.processingDetails.map
          FileDetail.status = ["processing", "processing"]) ∧
    ("processing" : String) ≠ "complete" := by decide

/-- C2 amended: in the batch path a transient status failure for a job
in round k yields displayed state processing for that job in that round
(so the state is unchanged exactly when the state after round k-1 was
non-terminal), the round schedules a next one in which every job is
queried again, and a transient error alone is never surfaced as a job
failure; in the single-job path a transient error leaves the display
unchanged but also schedules no further round. -/
theorem transient_error_round_behavior (jobIds : List String) (ds : List UploadDetail)
    (fetch : List (Option ServerResponse)) (st : BatchPollState) (i : Nat)
    (hi : fetch[i]? = some none) (hd : i < ds.length) (hlen : fetch.length = jobIds.length) :
    ((checkJobs jobIds ds fetch st).display.processingDetails[i]?.map FileDetail.status
        = some "processing") ∧
    (checkJobs jobIds ds fetch st).active = true ∧
    roundRequests jobIds (checkJobs jobIds ds fetch st) = jobIds ∧
    (∀ (j f : String) (s2 : SinglePollState),
      checkStatus j f none s2 = { s2 with active := false }) := by
  have hmap : (fetch.map resolveFetch)[i]? = some unknownStatus := by
    rw [List.getElem?_map, hi]
    rfl
  have hmem : unknownStatus ∈ fetch.map resolveFetch := List.getElem?_mem hmap
  have hlt := completed_add_failed_lt (fetch.map resolveFetch) unknownStatus hmem
    (by decide) (by decide)
  rw [List.length_map, hlen] at hlt
  have hcond : 0 < processingCount jobIds.length (fetch.map resolveFetch) := by
    unfold processingCount
    omega
  have hactive : (checkJobs jobIds ds fetch st).active = true := by
    unfold checkJobs
    rw [if_pos hcond]
  have hdetails : (checkJobs jobIds ds fetch st).display.processingDetails
      = roundDetails ds fetch := by
    unfold checkJobs
    rw [if_pos hcond]
  refine ⟨?_, hactive, by simp [roundRequests, hactive], fun j f s2 => rfl⟩
  rw [hdetails]
  simp [roundDetails, List.getElem?_zipWith, List.getElem?_eq_getElem hd, hmap,
    updateDetail, displayStatusOf, unknownStatus]

/-- C2 witness: two jobs, fetch for the first fails transiently: its
displayed state this round is processing. -/
theorem transient_error_round_behavior_witness :
    (checkJobs ["ja", "jb"]
        [{ filename := "a.pdf", job_id := some "ja" }, { filename := "b.pdf", job_id := some "jb" }]
        [none, some { status := "queued" }]
        (initBatch [{ filename := "a.pdf", job_id := some "ja" }, { filename := "b.pdf", job_id := some "jb" }] 2 2)).display.processingDetails[0]?.map
      FileDetail.status = some "processing" :=
  (transient_error_round_behavior ["ja", "jb"]
    [{ filename := "a.pdf", job_id := some "ja" }, { filename := "b.pdf", job_id := some "jb" }]
    [none, some { status := "queued" }]
    (initBatch [{ filename := "a.pdf", job_id := some "ja" }, { filename := "b.pdf", job_id := some "jb" }] 2 2)
    0 (by decide) (by decide) (by decide)).1

/-- C3 counterexample: after round 1 job jc is displayed complete, yet
the scheduled round 2 issues status requests for both jobs including
jc, and a round 2 whose fetch for jc fails moves its displayed state
away from complete. -/
theorem terminal_job_still_polled :
    (((checkJobs ["jc", "jd"]
        [{ filename := "c.pdf", job_id := some "jc" }, { filename := "d.pdf", job_id := some "jd" }]
        [some { status := "finished" }, some { status := "started" }]
        (initBatch [{ filename := "c.pdf", job_id := some "jc" }, { filename := "d.pdf", job_id := some "jd" }] 2 2)).display.processingDetails.map
          FileDetail.status)[0]? = some "complete") ∧
    roundRequests ["jc", "jd"]
        (checkJobs ["jc", "jd"]
          [{ filename := "c.pdf", job_id := some "jc" }, { filename := "d.pdf", job_id := some "jd" }]
          [some { status := "finished" }, some { status := "started" }]
          (initBatch [{ filename := "c.pdf", job_id := some "jc" }, { filename := "d.pdf", job_id := some "jd" }] 2 2))
      = ["jc", "jd"] ∧
    (((checkJobs ["jc", "jd"]
        [{ filename := "c.pdf", job_id := some "jc" }, { filename := "d.pdf", job_id := some "jd" }]
        [none, some { status := "started" }]
        (checkJobs ["jc", "jd"]
          [{ filename := "c.pdf", job_id := some "jc" }, { filename := "d.pdf", job_id := some "jd" }]
          [some { status := "finished" }, some { status := "started" }]
          (initBatch [{ filename := "c.pdf", job_id := some "jc" }, { filename := "d.pdf", job_id := some "jd" }] 2 2))).display.processingDetails.map
          FileDetail.status)[0]? = some "processing") := by decide

/-- C3 amended: a round whose fetch for job i succeeds with a terminal
status displays that terminal state for i (so repeated terminal
responses keep the displayed state), and in a round where every fetched
status is terminal the loop stops: no further round is scheduled and no
further requests are issued for any job; per-job polling does not stop
earlier than that. -/
theorem terminal_round_behavior (jobIds : List String) (ds : List UploadDetail)
    (fetch : List (Option ServerResponse)) (st : BatchPollState) (i : Nat) (r : ServerResponse)
    (hf : fetch[i]? = some (some r)) (hd : i < ds.length)
    (hterm : r.status = "finished" ∨ r.status = "failed")
    (hall : ∀ s ∈ fetch.map resolveFetch, s.status = "finished" ∨ s.status = "failed")
    (hlen : fetch.length = jobIds.length) :
    ((checkJobs jobIds ds fetch st).display.processingDetails[i]?.map FileDetail.status
        = some (if r.status = "finished" then "complete" else "failed")) ∧
    (checkJobs jobIds ds fetch st).active = false ∧
    roundRequests jobIds (checkJobs jobIds ds fetch st) = [] := by
  have heq := completed_add_failed_eq (fetch.map resolveFetch) hall
  rw [List.length_map, hlen] at heq
  have hcond : ¬ 0 < processingCount jobIds.length (fetch.map resolveFetch) := by
    unfold processingCount
    omega
  have hactive : (checkJobs jobIds ds fetch st).active = false := by
    unfold checkJobs
    rw [if_neg hcond]
  have hdetails : (checkJobs jobIds ds fetch st).display.processingDetails
      = roundDetails ds fetch := by
    unfold checkJobs
    rw [if_neg hcond]
  have hmap : (fetch.map resolveFetch)[i]? = some r := by
    rw [List.getElem?_map, hf]
    rfl
  refine ⟨?_, hactive, by simp [roundRequests, hactive]⟩
  rw [hdetails]
  rcases hterm with h | h
  · simp [roundDetails, List.getElem?_zipWith, List.getElem?_eq_getElem hd, hmap,
      updateDetail, displayStatusOf, h]
  · have hne : r.status ≠ "finished" := by
      rw [h]
      decide
    simp [roundDetails, List.getElem?_zipWith, List.getElem?_eq_getElem hd, hmap,
      updateDetail, displayStatusOf, h, hne]

/-- C3 witness: one job whose fetch reports finished: the round stops
the loop. -/
theorem terminal_round_behavior_witness :
    (checkJobs ["je"] [{ filename := "e.pdf", job_id := some "je" }]
        [some { status := "finished" }]
        (initBatch [{ filename := "e.pdf", job_id := some "je" }] 1 1)).active = false :=
  (terminal_round_behavior ["je"] [{ filename := "e.pdf", job_id := some "je" }]
    [some { status := "finished" }]
    (initBatch [{ filename := "e.pdf", job_id := some "je" }] 1 1) 0 { status := "finished" }
    (by decide) (by decide) (Or.inl rfl) (by decide) rfl).2.1

/-- C4 counterexample: after a new batch for new.pdf is submitted, a
still-scheduled round of the previous batch for old.pdf fires and
overwrites the display with the previous batch data: the shown
filename list reverts from new.pdf to old.pdf. -/
theorem stale_round_clobbers_new_batch :
    ((initMultiDisplay [{ filename := "new.pdf", job_id := some "jn" }] 1 1).processingDetails.map
        FileDetail.filename = ["new.pdf"]) ∧
    ((checkJobs ["jo"] [{ filename := "old.pdf", job_id := some "jo" }]
        [some { status := "queued" }]
        { attempts := 5, display := initMultiDisplay [{ filename := "new.pdf", job_id := some "jn" }] 1 1, active := true }).display.processingDetails.map
        FileDetail.filename = ["old.pdf"]) ∧
    (["old.pdf"] : List String) ≠ ["new.pdf"] := by decide

/-- C4 amended: no supersession mechanism exists: whatever the current
display state holds (in particular the freshly submitted batch state),
a round of a still-active previous loop rewrites the per-file details
from the previous batch data. -/
theorem stale_round_overwrites (jobIds : List String) (ds : List UploadDetail)
    (fetch : List (Option ServerResponse)) (st : BatchPollState)
    (h : fetch.length = ds.length) :
    (checkJobs jobIds ds fetch st).display.processingDetails.map FileDetail.filename
      = ds.map UploadDetail.filename := by
  unfold checkJobs
  split <;> simpa using roundDetails_filenames ds fetch h

/-- C4 witness: a stale one-job round writes its own filename into the
display regardless of the state it finds. -/
theorem stale_round_overwrites_witness :
    (checkJobs ["jw"] [{ filename := "w.pdf", job_id := some "jw" }] [some { status := "queued" }]
        (initBatch [{ filename := "w.pdf", job_id := some "jw" }] 1 1)).display.processingDetails.map
        FileDetail.filename
      = List.map UploadDetail.filename [{ filename := "w.pdf", job_id := some "jw" }] :=
  stale_round_overwrites ["jw"] [{ filename := "w.pdf", job_id := some "jw" }]
    [some { status := "queued" }]
    (initBatch [{ filename := "w.pdf", job_id := some "jw" }] 1 1) rfl

end HC393
